import Mathlib

/-!
Verification development for the vyos-1x tunnel-interface provisioning core
and the RPKI configuration verifier.

The repository snapshot contains the tunnel smoketest
(`smoketest/scripts/cli/test_interfaces_tunnel.py`) and the RPKI
configuration module (`src/conf_mode/protocols_rpki.py`).  The tunnel
conf-mode module itself (Constraint Catalog, Validator, Parameter Compiler,
Reconciler) is exercised by the smoketest but its implementation file is not
part of the snapshot; those components are therefore modelled from the
specification (spec.md §3, §4.1–§4.4), kept consistent with every observable
assertion of the smoketest.  The RPKI `verify` function is embedded directly
from `src/conf_mode/protocols_rpki.py`.
-/

/- ### Address model -/

/-- Address family of an IP address. -/
inductive AddrFamily where
  | ipv4
  | ipv6
deriving DecidableEq, Repr

/-- An IP address: the family it belongs to plus its textual form.  The
validator only inspects the family; the compiler copies the text verbatim
(spec §4.3 "local, remote: copied verbatim"). -/
structure IPAddr where
  family : AddrFamily
  text : String
deriving DecidableEq, Repr

/- ### Encapsulation variants (spec §3: closed variant set) -/

/-- The closed set of tunnel encapsulation variants (spec §3). -/
inductive Encapsulation where
  | ipip
  | sit
  | gre
  | gretap
  | ipip6
  | ip6ip6
  | ip6gre
  | ip6gretap
  | erspan
  | ip6erspan
deriving DecidableEq, Repr

/-- ERSPAN mirroring direction (spec §3 erspanParameters.direction). -/
inductive Direction where
  | ingress
  | egress
deriving DecidableEq, Repr

/- ### Constraint Catalog (spec §4.1) -/

/-- Modelled from the spec: the Constraint Catalog of the missing tunnel
conf-mode module.  Required address family for sourceAddress/remoteAddress
per encapsulation (spec §4.1; smoketest test_ipv4_encapsulations and
test_ipv6_encapsulations fix the two groups). -/
def requiredFamily : Encapsulation → AddrFamily
  | .ipip => .ipv4
  | .sit => .ipv4
  | .gre => .ipv4
  | .gretap => .ipv4
  | .erspan => .ipv4
  | .ipip6 => .ipv6
  | .ip6ip6 => .ipv6
  | .ip6gre => .ipv6
  | .ip6gretap => .ipv6
  | .ip6erspan => .ipv6

/-- Modelled from the spec: whether sourceInterface binding is permitted
(spec §4.1, §4.2 rule 3: forbidden for sit, gretap and ip6gretap; the
smoketest commits fail for exactly those three). -/
def bindingPermitted : Encapsulation → Bool
  | .sit => false
  | .gretap => false
  | .ip6gretap => false
  | _ => true

/-- Modelled from the spec: whether the encapsulation is an ERSPAN variant,
for which an ip key is mandatory (spec §4.1 "whether a key is mandatory",
§4.2 rule 4). -/
def isErspan : Encapsulation → Bool
  | .erspan => true
  | .ip6erspan => true
  | _ => false

/-- Modelled from the spec: canonical kernel device-type string
(spec §4.1, §4.3 info_kind; the smoketest checks linkinfo.info_kind, with
ipip6 and ip6ip6 both remapped to ip6tnl). -/
def infoKind : Encapsulation → String
  | .ipip => "ipip"
  | .sit => "sit"
  | .gre => "gre"
  | .gretap => "gretap"
  | .erspan => "erspan"
  | .ipip6 => "ip6tnl"
  | .ip6ip6 => "ip6tnl"
  | .ip6gre => "ip6gre"
  | .ip6gretap => "ip6gretap"
  | .ip6erspan => "ip6erspan"

/-- Modelled from the spec: per-encapsulation header overhead in bytes used
for MTU derivation (spec §4.1, §4.3 mtu).  The smoketest observes a derived
MTU of 1476 for every encapsulation it commits, from the 1500-byte base
device MTU, fixing the overhead at 24 bytes for each variant. -/
def headerOverhead : Encapsulation → Nat
  | _ => 24

/-- Base device MTU the derivation starts from (smoketest: derived MTU 1476
equals 1500 minus the catalog overhead). -/
def defaultBaseMtu : Nat := 1500

/- ### Tunnel descriptor (spec §3) -/

/-- Optional ip parameter sub-record of a tunnel descriptor (spec §3
ipParameters). -/
structure IpParams where
  noPmtuDiscovery : Bool
  key : Option Nat
  tos : Option Nat
  ttl : Option Nat
deriving DecidableEq, Repr

/-- The empty ipParameters sub-record (nothing configured). -/
def IpParams.none : IpParams := ⟨false, Option.none, Option.none, Option.none⟩

/-- Optional ERSPAN sub-record (spec §3 erspanParameters; version defaults
to 1 with schema defaults pre-applied). -/
structure ErspanParams where
  version : Nat
  index : Option Nat
  direction : Option Direction
deriving DecidableEq, Repr

/-- The default erspanParameters sub-record: version 1, nothing else set. -/
def ErspanParams.default : ErspanParams := ⟨1, Option.none, Option.none⟩

/-- A candidate tunnel descriptor, one per named tunnel interface
(spec §3 TunnelDescriptor). -/
structure TunnelDescriptor where
  name : String
  encapsulation : Encapsulation
  sourceAddress : Option IPAddr
  remoteAddress : IPAddr
  sourceInterface : Option String
  dhcpInterface : Option String
  ipParameters : IpParams
  erspanParameters : ErspanParams
  mtu : Option Nat
deriving DecidableEq, Repr

/- ### Validator (spec §4.2) -/

/-- The kinds of validation violations the Validator can report
(spec §4.2 rules 1–5). -/
inductive Violation where
  | sourceAddrFamily
  | remoteAddrFamily
  | sourceDhcpMutex
  | bindingForbidden
  | erspanKeyMissing
  | erspanIndexWithV2
  | erspanDirectionMissing
deriving DecidableEq, Repr

/-- Modelled from the spec: rule 1 of the missing tunnel Validator —
address-family match for sourceAddress and remoteAddress, source reported
before remote (spec §4.2 rule 1). -/
def familyViolations (d : TunnelDescriptor) : List Violation :=
  (match d.sourceAddress with
   | some a => if a.family ≠ requiredFamily d.encapsulation then [.sourceAddrFamily] else []
   | none => []) ++
  (if d.remoteAddress.family ≠ requiredFamily d.encapsulation then [.remoteAddrFamily] else [])

/-- Modelled from the spec: rule 2 — sourceAddress and dhcpInterface are
mutually exclusive (spec §4.2 rule 2). -/
def mutexViolations (d : TunnelDescriptor) : List Violation :=
  if d.sourceAddress.isSome ∧ d.dhcpInterface.isSome then [.sourceDhcpMutex] else []

/-- Modelled from the spec: rule 3 — sourceInterface set while binding is
not permitted for the encapsulation (spec §4.2 rule 3). -/
def bindingViolations (d : TunnelDescriptor) : List Violation :=
  if d.sourceInterface.isSome ∧ ¬ bindingPermitted d.encapsulation then
    [.bindingForbidden]
  else []

/-- Modelled from the spec: rules 4 and 5 — ERSPAN key requirement surfaced
before the ERSPAN-specific version/index/direction checks (spec §4.2
rules 4–5). -/
def erspanViolations (d : TunnelDescriptor) : List Violation :=
  if isErspan d.encapsulation then
    (if d.ipParameters.key.isNone then [.erspanKeyMissing] else []) ++
    (if d.erspanParameters.version = 2 ∧ d.erspanParameters.index.isSome then
      [.erspanIndexWithV2] else []) ++
    (if d.erspanParameters.version = 2 ∧ d.erspanParameters.direction.isNone then
      [.erspanDirectionMissing] else [])
  else []

/-- Modelled from the spec: the missing tunnel Validator.  All rules are
evaluated independently and their violation lists concatenated
(spec §4.2 "Rules, evaluated independently (all violations collected, not
short-circuited)", §9 result-accumulator pattern). -/
def validate (d : TunnelDescriptor) : List Violation :=
  familyViolations d ++ mutexViolations d ++ bindingViolations d ++ erspanViolations d

/-- The per-kind violation predicate the spec's rules describe: a given
violation kind applies to a descriptor exactly under its rule's condition,
independent of all other rules (spec §4.2 rules 1–5). -/
def violates (d : TunnelDescriptor) : Violation → Bool
  | .sourceAddrFamily =>
      match d.sourceAddress with
      | some a => decide (a.family ≠ requiredFamily d.encapsulation)
      | none => false
  | .remoteAddrFamily => decide (d.remoteAddress.family ≠ requiredFamily d.encapsulation)
  | .sourceDhcpMutex => d.sourceAddress.isSome && d.dhcpInterface.isSome
  | .bindingForbidden => d.sourceInterface.isSome && !(bindingPermitted d.encapsulation)
  | .erspanKeyMissing => isErspan d.encapsulation && d.ipParameters.key.isNone
  | .erspanIndexWithV2 =>
      isErspan d.encapsulation && (d.erspanParameters.version == 2) &&
        d.erspanParameters.index.isSome
  | .erspanDirectionMissing =>
      isErspan d.encapsulation && (d.erspanParameters.version == 2) &&
        d.erspanParameters.direction.isNone

/- ### Parameter Compiler (spec §4.3) -/

/-- Dotted-quad rendering of a 32-bit tunnel key, the representation the
kernel tunnel ABI reports for ikey/okey (smoketest: key 77 is observed as
"0.0.0.77"; spec §4.3 ikey/okey). -/
def keyEncode (k : Nat) : String :=
  s!"{k / 16777216 % 256}.{k / 65536 % 256}.{k / 256 % 256}.{k % 256}"

/-- The flat attribute set a kernel tunnel device accepts (spec §4.3
KernelTunnelParams; field shapes follow the smoketest's
linkinfo.info_data queries). -/
structure KernelTunnelParams where
  localAddress : Option IPAddr
  remote : IPAddr
  ttl : Nat
  tos : Option Nat
  pmtudisc : Bool
  ikey : Option String
  okey : Option String
  erspan_ver : Option Nat
  erspan_index : Option Nat
  erspan_dir : Option Direction
  iseq : Bool
  oseq : Bool
  link : Option String
  info_kind : String
  mtu : Nat
deriving DecidableEq, Repr

/-- Modelled from the spec: the missing tunnel Parameter Compiler
(spec §4.3).  `baseMtu` is the base device MTU the MTU derivation starts
from; every other derivation is a pure function of the validated
descriptor and the Constraint Catalog. -/
def compile (baseMtu : Nat) (d : TunnelDescriptor) : KernelTunnelParams :=
  { localAddress := d.sourceAddress
    remote := d.remoteAddress
    ttl := d.ipParameters.ttl.getD 0
    tos := d.ipParameters.tos
    pmtudisc := !d.ipParameters.noPmtuDiscovery
    ikey := d.ipParameters.key.map keyEncode
    okey := d.ipParameters.key.map keyEncode
    erspan_ver := if isErspan d.encapsulation then some d.erspanParameters.version else none
    erspan_index :=
      if isErspan d.encapsulation ∧ d.erspanParameters.version = 1 then
        d.erspanParameters.index
      else none
    erspan_dir :=
      if isErspan d.encapsulation ∧ d.erspanParameters.version = 2 then
        d.erspanParameters.direction
      else none
    iseq := isErspan d.encapsulation
    oseq := isErspan d.encapsulation
    link :=
      if bindingPermitted d.encapsulation then d.sourceInterface else none
    info_kind := infoKind d.encapsulation
    mtu := match d.mtu with
           | some m => m
           | none => baseMtu - headerOverhead d.encapsulation }

/- ### Reconciler (spec §4.4) -/

/-- The action the Reconciler selects for one interface
(spec §4.4 state machine). -/
inductive ReconcileAction where
  | create
  | noOp
  | modifyInPlace
  | deleteThenCreate
deriving DecidableEq, Repr

/-- Modelled from the spec: the missing tunnel Reconciler's decision.
`current` is the live interface's attribute set as returned by the kernel
query surface, or none when the interface is absent (spec §4.4 policy:
Absent → Create; matching → NoOp; divergent with the same device kind →
Modify-In-Place; device-kind change → Delete-then-Create). -/
def reconcileAction (current : Option KernelTunnelParams)
    (target : KernelTunnelParams) : ReconcileAction :=
  match current with
  | none => .create
  | some c =>
      if c = target then .noOp
      else if c.info_kind = target.info_kind then .modifyInPlace
      else .deleteThenCreate

/-- Modelled from the spec: the live state after the Reconciler acts — each
of Create, Modify-In-Place and Delete-then-Create materialises the full
target parameter set, and NoOp leaves the (already matching) interface
alone (spec §4.4). -/
def reconcile (current : Option KernelTunnelParams)
    (target : KernelTunnelParams) : Option KernelTunnelParams :=
  match reconcileAction current target with
  | .noOp => current
  | _ => some target

/- ### RPKI configuration verifier (src/conf_mode/protocols_rpki.py) -/

namespace Rpki

/-- The `ssh` sub-dictionary of one RPKI cache peer: each of the three file
entries may be present or absent (`protocols_rpki.py` lines 68–77). -/
structure SshConfig where
  private_key_file : Option String
  public_key_file : Option String
  known_hosts_file : Option String
deriving DecidableEq, Repr

/-- One RPKI cache peer configuration dictionary: the keys `verify`
inspects (`port`, `preference`, `ssh`), each possibly absent
(`protocols_rpki.py` lines 55–77). -/
structure CacheEntry where
  port : Option Nat
  preference : Option Nat
  ssh : Option SshConfig
deriving DecidableEq, Repr

/-- The RPKI configuration dictionary as `verify` sees it: `nonempty` is
the Python truthiness of the dict (`if not rpki: return None`), `cache` is
present when the dict has a `cache` key, holding the peer items in
iteration order. -/
structure Config where
  nonempty : Bool
  cache : Option (List (String × CacheEntry))
deriving DecidableEq, Repr

/-- The three ssh file keys checked for a cache peer, in the order of the
`files` list in `protocols_rpki.py` line 69. -/
def sshFileValue (s : SshConfig) : String → Option String
  | "private_key_file" => s.private_key_file
  | "public_key_file" => s.public_key_file
  | _ => s.known_hosts_file

/-- The ssh sub-checks of `verify` for one peer: each of the three file
keys must be present and name an existing file (`protocols_rpki.py`
lines 68–77).  `fileExists` stands for `os.path.exists`. -/
def verifySsh (fileExists : String → Bool) (s : SshConfig) :
    String → Except String Unit
  | file =>
      match sshFileValue s file with
      | none => .error "RPKI+SSH requires username, public/private keys and known-hosts file to be defined!"
      | some filename =>
          if fileExists filename then .ok ()
          else .error s!"RPKI SSH {file} \x22{filename}\x22 does not exist!"

/-- The body of `verify`'s per-peer loop (`protocols_rpki.py` lines 57–77):
mandatory `port` and `preference`, duplicate-preference rejection against
the preferences seen so far, then the ssh checks.  Returns the updated
preference accumulator. -/
def verifyPeer (fileExists : String → Bool) (prefsSeen : List Nat)
    (peer : String) (pc : CacheEntry) : Except String (List Nat) := do
  if pc.port.isNone then
    throw s!"RPKI cache \x22{peer}\x22 port must be defined!"
  if pc.preference.isNone then
    throw s!"RPKI cache \x22{peer}\x22 preference must be defined!"
  let prefsNext ←
    match pc.preference with
    | some preference =>
        if preference ∈ prefsSeen then
          throw s!"RPKI cache with preference {preference} already configured!"
        else
          pure (prefsSeen ++ [preference])
    | none => pure prefsSeen
  match pc.ssh with
  | some s => do
      verifySsh fileExists s "private_key_file"
      verifySsh fileExists s "public_key_file"
      verifySsh fileExists s "known_hosts_file"
      pure prefsNext
  | none => pure prefsNext

/-- The fold of `verify`'s loop over the cache items, threading the
preference accumulator (`protocols_rpki.py` lines 56–77). -/
def verifyCache (fileExists : String → Bool) (prefsSeen : List Nat) :
    List (String × CacheEntry) → Except String (List Nat)
  | [] => .ok prefsSeen
  | (peer, pc) :: rest => do
      let prefsNext ← verifyPeer fileExists prefsSeen peer pc
      verifyCache fileExists prefsNext rest

/-- `verify` from `src/conf_mode/protocols_rpki.py` (lines 51–79): returns
ok (Python `None`) on an empty config or one without a `cache` key, else
checks every cache peer in order and raises `ConfigError` (modelled as
`Except.error` carrying the message) at the first violated check. -/
def verify (fileExists : String → Bool) (rpki : Config) : Except String Unit :=
  if !rpki.nonempty then .ok ()
  else
    match rpki.cache with
    | some entries => (verifyCache fileExists [] entries).map (fun _ => ())
    | none => .ok ()

/-- The preference values configured on a cache item list, in order,
skipping absent ones. -/
def cachePreferences (entries : List (String × CacheEntry)) : List Nat :=
  entries.filterMap (fun e => e.2.preference)

end Rpki

/- ### Concrete scenario descriptors from the smoketest -/

/-- The GRE parameter scenario (spec §8; smoketest test_tunnel_parameters_gre):
source 192.0.2.1, remote 192.0.2.10, no-pmtu-discovery, key 10, tos 20. -/
def greScenario : TunnelDescriptor :=
  { name := "tun1030"
    encapsulation := .gre
    sourceAddress := some ⟨.ipv4, "192.0.2.1"⟩
    remoteAddress := ⟨.ipv4, "192.0.2.10"⟩
    sourceInterface := none
    dhcpInterface := none
    ipParameters := { noPmtuDiscovery := true, key := some 10, tos := some 20, ttl := none }
    erspanParameters := ErspanParams.default
    mtu := none }

/-- The final committed IP6ERSPAN v2 scenario (spec §8; smoketest
test_ip6erspan_v2): IPv6 endpoints, key 77, version 2, direction ingress,
no index. -/
def ip6erspanScenario : TunnelDescriptor :=
  { name := "tun1070"
    encapsulation := .ip6erspan
    sourceAddress := some ⟨.ipv6, "2001:db8::1"⟩
    remoteAddress := ⟨.ipv6, "2001:db8::ffff"⟩
    sourceInterface := none
    dhcpInterface := none
    ipParameters := { noPmtuDiscovery := false, key := some 77, tos := none, ttl := none }
    erspanParameters := { version := 2, index := none, direction := some .ingress }
    mtu := none }

/-- The ERSPAN v1 scenario (spec §8; smoketest test_erspan_v1): IPv4
endpoints, key 77, version 1, index 20. -/
def erspanV1Scenario : TunnelDescriptor :=
  { name := "tun1070"
    encapsulation := .erspan
    sourceAddress := some ⟨.ipv4, "192.0.2.1"⟩
    remoteAddress := ⟨.ipv4, "192.0.2.100"⟩
    sourceInterface := none
    dhcpInterface := none
    ipParameters := { noPmtuDiscovery := false, key := some 77, tos := none, ttl := none }
    erspanParameters := { version := 1, index := some 20, direction := none }
    mtu := none }

/- ### Shared lemmas about the Validator -/

/-- A violation kind is reported by the Validator exactly when its own
rule's condition holds, independent of every other rule. -/
lemma mem_validate_iff (d : TunnelDescriptor) (v : Violation) :
    v ∈ validate d ↔ violates d v = true := by
  cases v <;>
    simp only [validate, familyViolations, mutexViolations, bindingViolations,
      erspanViolations, violates, List.mem_append] <;>
    rcases d with ⟨nm, enc, src, rem, sif, dif, ipp, esp, m⟩ <;>
    cases src <;>
    simp_all [and_assoc]

/-- Members of the IPv4 encapsulation group require the IPv4 family. -/
lemma requiredFamily_of_mem_v4group {e : Encapsulation}
    (h : e ∈ ([.ipip, .sit, .gre, .gretap, .erspan] : List Encapsulation)) :
    requiredFamily e = .ipv4 := by
  cases e <;> revert h <;> decide

/-- Members of the IPv6 encapsulation group require the IPv6 family. -/
lemma requiredFamily_of_mem_v6group {e : Encapsulation}
    (h : e ∈ ([.ipip6, .ip6ip6, .ip6gre, .ip6gretap, .ip6erspan] : List Encapsulation)) :
    requiredFamily e = .ipv6 := by
  cases e <;> revert h <;> decide

/-- Binding is forbidden exactly for sit, gretap and ip6gretap. -/
lemma bindingPermitted_iff (e : Encapsulation) :
    bindingPermitted e = false ↔ e ∈ ([.sit, .gretap, .ip6gretap] : List Encapsulation) := by
  cases e <;> decide

/- ### Claim theorems -/

/-- Claim C1: for every candidate tunnel descriptor, validation evaluates
all rules independently and returns the full list of violations rather
than stopping at the first one: a violation kind is in the returned list
exactly when its rule's condition holds of the descriptor, so a single
commit attempt reports every defect present. -/
theorem validate_reports_all_defects (d : TunnelDescriptor) (v : Violation) :
    v ∈ validate d ↔ violates d v = true :=
  mem_validate_iff d v

/-- Claim C2: IPv4-group encapsulations reject IPv6 source or remote
addresses with a violation (and validation is then non-empty, so the
commit aborts); symmetrically IPv6-group encapsulations reject IPv4
addresses. -/
theorem address_family_enforcement (d : TunnelDescriptor) (a : IPAddr) :
    (d.encapsulation ∈ ([.ipip, .sit, .gre, .gretap, .erspan] : List Encapsulation) →
      (d.sourceAddress = some a → a.family = .ipv6 →
        Violation.sourceAddrFamily ∈ validate d ∧ validate d ≠ []) ∧
      (d.remoteAddress.family = .ipv6 →
        Violation.remoteAddrFamily ∈ validate d ∧ validate d ≠ [])) ∧
    (d.encapsulation ∈ ([.ipip6, .ip6ip6, .ip6gre, .ip6gretap, .ip6erspan] : List Encapsulation) →
      (d.sourceAddress = some a → a.family = .ipv4 →
        Violation.sourceAddrFamily ∈ validate d ∧ validate d ≠ []) ∧
      (d.remoteAddress.family = .ipv4 →
        Violation.remoteAddrFamily ∈ validate d ∧ validate d ≠ [])) := by
  constructor
  · intro hmem
    have hreq := requiredFamily_of_mem_v4group hmem
    constructor
    · intro hsrc hfam
      have hv : Violation.sourceAddrFamily ∈ validate d :=
        (mem_validate_iff d _).mpr (by simp [violates, hsrc, hfam, hreq])
      exact ⟨hv, fun hnil => by simp [hnil] at hv⟩
    · intro hfam
      have hv : Violation.remoteAddrFamily ∈ validate d :=
        (mem_validate_iff d _).mpr (by simp [violates, hfam, hreq])
      exact ⟨hv, fun hnil => by simp [hnil] at hv⟩
  · intro hmem
    have hreq := requiredFamily_of_mem_v6group hmem
    constructor
    · intro hsrc hfam
      have hv : Violation.sourceAddrFamily ∈ validate d :=
        (mem_validate_iff d _).mpr (by simp [violates, hsrc, hfam, hreq])
      exact ⟨hv, fun hnil => by simp [hnil] at hv⟩
    · intro hfam
      have hv : Violation.remoteAddrFamily ∈ validate d :=
        (mem_validate_iff d _).mpr (by simp [violates, hfam, hreq])
      exact ⟨hv, fun hnil => by simp [hnil] at hv⟩

/-- Witness for claim C2: a GRE descriptor with IPv6 endpoints is rejected
with a source-address family violation. -/
theorem address_family_enforcement_witness :
    Violation.sourceAddrFamily ∈
        validate { greScenario with
                     sourceAddress := some ⟨.ipv6, "2001:db8::1"⟩,
                     remoteAddress := ⟨.ipv6, "2001:db8::ffff"⟩ } ∧
      validate { greScenario with
                   sourceAddress := some ⟨.ipv6, "2001:db8::1"⟩,
                   remoteAddress := ⟨.ipv6, "2001:db8::ffff"⟩ } ≠ [] :=
  ((address_family_enforcement
      { greScenario with
          sourceAddress := some ⟨.ipv6, "2001:db8::1"⟩,
          remoteAddress := ⟨.ipv6, "2001:db8::ffff"⟩ }
      ⟨.ipv6, "2001:db8::1"⟩).1 (by decide)).1 rfl rfl

/-- Claim C3: the ERSPAN matrix — version 1 with index set and no key
yields the missing-key violation and not the index violation; adding the
key clears it; version 2 with index set yields a violation distinct from
the missing-key one; version 2 without direction yields a violation;
setting direction clears it, and the final ip6erspan scenario then
validates cleanly so the commit succeeds. -/
theorem erspan_matrix (d : TunnelDescriptor) (hE : isErspan d.encapsulation = true) :
    (d.erspanParameters.version = 1 → d.erspanParameters.index.isSome = true →
        d.ipParameters.key = none →
      Violation.erspanKeyMissing ∈ validate d ∧
        Violation.erspanIndexWithV2 ∉ validate d) ∧
    (∀ k : Nat, Violation.erspanKeyMissing ∉
        validate { d with ipParameters := { d.ipParameters with key := some k } }) ∧
    (d.erspanParameters.version = 2 → d.erspanParameters.index.isSome = true →
      Violation.erspanIndexWithV2 ∈ validate d ∧
        Violation.erspanIndexWithV2 ≠ Violation.erspanKeyMissing) ∧
    (d.erspanParameters.version = 2 → d.erspanParameters.direction = none →
      Violation.erspanDirectionMissing ∈ validate d) ∧
    (d.erspanParameters.version = 2 → d.erspanParameters.direction.isSome = true →
      Violation.erspanDirectionMissing ∉ validate d) ∧
    validate ip6erspanScenario = [] := by
  refine ⟨fun h1 hidx hkey => ⟨?_, ?_⟩, fun k => ?_, fun h2 hidx => ⟨?_, by decide⟩,
    fun h2 hdir => ?_, fun h2 hdir => ?_, by decide⟩
  · exact (mem_validate_iff d _).mpr (by simp [violates, hE, hkey])
  · rw [mem_validate_iff]
    simp [violates, h1]
  · rw [mem_validate_iff]
    simp [violates]
  · exact (mem_validate_iff d _).mpr (by simp [violates, hE, h2, hidx])
  · exact (mem_validate_iff d _).mpr (by simp [violates, hE, h2, hdir])
  · rw [mem_validate_iff]
    rcases hd : d.erspanParameters.direction with _ | dir
    · rw [hd] at hdir
      simp at hdir
    · simp [violates, hd]

/-- Witness for claim C3: the ERSPAN v1 scenario without its key is
rejected for the missing key and not for its index. -/
theorem erspan_matrix_witness :
    isErspan (TunnelDescriptor.encapsulation
        { erspanV1Scenario with ipParameters := IpParams.none }) = true ∧
      (Violation.erspanKeyMissing ∈
          validate { erspanV1Scenario with ipParameters := IpParams.none } ∧
        Violation.erspanIndexWithV2 ∉
          validate { erspanV1Scenario with ipParameters := IpParams.none }) :=
  ⟨by decide,
    (erspan_matrix { erspanV1Scenario with ipParameters := IpParams.none }
      (by decide)).1 rfl rfl rfl⟩

/-- Claim C6: sourceInterface is rejected for sit, gretap and ip6gretap
(and validation is then non-empty); for every other encapsulation it is
accepted by the binding rule and the compiled parameters carry it as the
link device. -/
theorem binding_exclusion (d : TunnelDescriptor) (s : String)
    (h : d.sourceInterface = some s) :
    (d.encapsulation ∈ ([.sit, .gretap, .ip6gretap] : List Encapsulation) →
      Violation.bindingForbidden ∈ validate d ∧ validate d ≠ []) ∧
    (d.encapsulation ∉ ([.sit, .gretap, .ip6gretap] : List Encapsulation) →
      Violation.bindingForbidden ∉ validate d ∧
        ∀ base, (compile base d).link = some s) := by
  constructor
  · intro hmem
    have hb : bindingPermitted d.encapsulation = false := (bindingPermitted_iff _).mpr hmem
    have hv : Violation.bindingForbidden ∈ validate d :=
      (mem_validate_iff d _).mpr (by simp [violates, h, hb])
    exact ⟨hv, fun hnil => by simp [hnil] at hv⟩
  · intro hmem
    have hb : bindingPermitted d.encapsulation = true := by
      rcases hbool : bindingPermitted d.encapsulation
      · exact absurd ((bindingPermitted_iff _).mp hbool) hmem
      · rfl
    refine ⟨?_, fun base => ?_⟩
    · rw [mem_validate_iff]
      simp [violates, hb]
    · simp [compile, hb, h]

/-- Witness for claim C6: a gretap descriptor carrying the smoketest's
source interface dum2222 is rejected by the binding rule, while the same
descriptor with gre encapsulation compiles it into link. -/
theorem binding_exclusion_witness :
    (TunnelDescriptor.sourceInterface
        { greScenario with encapsulation := .gretap, sourceInterface := some "dum2222" } =
      some "dum2222") ∧
    (Violation.bindingForbidden ∈
        validate { greScenario with encapsulation := .gretap, sourceInterface := some "dum2222" } ∧
      validate { greScenario with encapsulation := .gretap, sourceInterface := some "dum2222" } ≠ []) ∧
    (compile defaultBaseMtu { greScenario with sourceInterface := some "dum2222" }).link =
      some "dum2222" :=
  ⟨rfl,
    (binding_exclusion
      { greScenario with encapsulation := .gretap, sourceInterface := some "dum2222" }
      "dum2222" rfl).1 (by decide),
    ((binding_exclusion { greScenario with sourceInterface := some "dum2222" }
      "dum2222" rfl).2 (by decide)).2 defaultBaseMtu⟩

/-- Claim C7: setting both sourceAddress and dhcpInterface always yields
the mutual-exclusion violation, regardless of every other field; removing
either one makes the descriptor pass this rule. -/
theorem source_dhcp_mutual_exclusion (d : TunnelDescriptor) :
    (d.sourceAddress.isSome = true → d.dhcpInterface.isSome = true →
      Violation.sourceDhcpMutex ∈ validate d ∧ validate d ≠ []) ∧
    Violation.sourceDhcpMutex ∉ validate { d with dhcpInterface := none } ∧
    Violation.sourceDhcpMutex ∉ validate { d with sourceAddress := none } := by
  refine ⟨fun hs hd => ?_, ?_, ?_⟩
  · have hv : Violation.sourceDhcpMutex ∈ validate d :=
      (mem_validate_iff d _).mpr (by simp [violates, hs, hd])
    exact ⟨hv, fun hnil => by simp [hnil] at hv⟩
  · rw [mem_validate_iff]
    simp [violates]
  · rw [mem_validate_iff]
    simp [violates]

/-- Witness for claim C7: the smoketest's tun1020 situation — a GRE
descriptor with both source address and dhcp-interface eth0 — violates the
mutual-exclusion rule. -/
theorem source_dhcp_mutual_exclusion_witness :
    (Option.isSome (TunnelDescriptor.sourceAddress
        { greScenario with dhcpInterface := some "eth0" }) = true) ∧
    (Option.isSome (TunnelDescriptor.dhcpInterface
        { greScenario with dhcpInterface := some "eth0" }) = true) ∧
    (Violation.sourceDhcpMutex ∈
        validate { greScenario with dhcpInterface := some "eth0" } ∧
      validate { greScenario with dhcpInterface := some "eth0" } ≠ []) :=
  ⟨rfl, rfl,
    (source_dhcp_mutual_exclusion { greScenario with dhcpInterface := some "eth0" }).1 rfl rfl⟩

/-- Claim C4: a single configured ipParameters.key compiles to identical
ikey and okey, both the dotted-quad encoding the kernel tunnel ABI
expects, with key 77 encoding as "0.0.0.77". -/
theorem key_symmetry (base : Nat) (d : TunnelDescriptor) (k : Nat)
    (h : d.ipParameters.key = some k) :
    (compile base d).ikey = some (keyEncode k) ∧
    (compile base d).okey = some (keyEncode k) ∧
    (compile base d).ikey = (compile base d).okey ∧
    keyEncode 77 = "0.0.0.77" := by
  refine ⟨?_, ?_, rfl, by decide⟩ <;> simp [compile, h]

/-- Witness for claim C4: the GRE scenario's key 10 compiles to matching
ikey and okey. -/
theorem key_symmetry_witness :
    greScenario.ipParameters.key = some 10 ∧
    ((compile defaultBaseMtu greScenario).ikey = some (keyEncode 10) ∧
      (compile defaultBaseMtu greScenario).okey = some (keyEncode 10) ∧
      (compile defaultBaseMtu greScenario).ikey = (compile defaultBaseMtu greScenario).okey ∧
      keyEncode 77 = "0.0.0.77") :=
  ⟨rfl, key_symmetry defaultBaseMtu greScenario 10 rfl⟩

/-- Claim C5: without an explicit MTU the compiled mtu is the base device
MTU minus the catalog's per-encapsulation overhead (1476 for the
smoketest's 1500-byte base); an explicit MTU always wins. -/
theorem mtu_derivation (base : Nat) (d : TunnelDescriptor) :
    (d.mtu = none →
      (compile base d).mtu = base - headerOverhead d.encapsulation) ∧
    (∀ m, d.mtu = some m → (compile base d).mtu = m) ∧
    (compile defaultBaseMtu greScenario).mtu = 1476 := by
  refine ⟨fun h => ?_, fun m h => ?_, by decide⟩ <;> simp [compile, h]

/-- Witness for claim C5: the GRE scenario without an explicit MTU derives
1500 − 24, and the same descriptor with an explicit MTU of 2000 keeps it. -/
theorem mtu_derivation_witness :
    (greScenario.mtu = none ∧
      (compile defaultBaseMtu greScenario).mtu =
        defaultBaseMtu - headerOverhead greScenario.encapsulation) ∧
    (TunnelDescriptor.mtu { greScenario with mtu := some 2000 } = some 2000 ∧
      (compile defaultBaseMtu { greScenario with mtu := some 2000 }).mtu = 2000) :=
  ⟨⟨rfl, (mtu_derivation defaultBaseMtu greScenario).1 rfl⟩,
    ⟨rfl, (mtu_derivation defaultBaseMtu { greScenario with mtu := some 2000 }).2.1 2000 rfl⟩⟩

/-- Claim C8: the compiled ttl is the explicit ipParameters.ttl when set
and 0 otherwise, pmtudisc is false exactly when noPmtuDiscovery is set;
the GRE scenario (source 192.0.2.1, remote 192.0.2.10, no-pmtu-discovery,
key 10, tos 20) compiles to ttl 0, pmtudisc false, ikey = okey =
encoding of 10, device kind gre. -/
theorem gre_parameter_derivation (base : Nat) (d : TunnelDescriptor) :
    (d.ipParameters.ttl = none → (compile base d).ttl = 0) ∧
    (∀ t, d.ipParameters.ttl = some t → (compile base d).ttl = t) ∧
    ((compile base d).pmtudisc = !d.ipParameters.noPmtuDiscovery) ∧
    ((compile defaultBaseMtu greScenario).ttl = 0 ∧
      (compile defaultBaseMtu greScenario).pmtudisc = false ∧
      (compile defaultBaseMtu greScenario).ikey = some (keyEncode 10) ∧
      (compile defaultBaseMtu greScenario).okey = some (keyEncode 10) ∧
      (compile defaultBaseMtu greScenario).info_kind = "gre") := by
  refine ⟨fun h => by simp [compile, h], fun t h => by simp [compile, h],
    by simp [compile], by decide⟩

/-- Witness for claim C8: the GRE scenario has no explicit ttl and its
compiled ttl is 0. -/
theorem gre_parameter_derivation_witness :
    greScenario.ipParameters.ttl = none ∧
      (compile defaultBaseMtu greScenario).ttl = 0 :=
  ⟨rfl, (gre_parameter_derivation defaultBaseMtu greScenario).1 rfl⟩

/-- After the Reconciler acts, the live interface always carries the full
target parameter set (spec §4.4: every action but NoOp materialises the
target, and NoOp only fires on an already-matching interface). -/
lemma reconcile_eq_target (c : Option KernelTunnelParams) (t : KernelTunnelParams) :
    reconcile c t = some t := by
  rcases c with _ | x
  · rfl
  · unfold reconcile reconcileAction
    by_cases hx : x = t
    · simp [hx]
    · by_cases hk : x.info_kind = t.info_kind <;> simp [hx, hk]

/-- Claim C9: compiling and reconciling yields live attributes equal to
the compiled target; reconciling an already-matching interface is a NoOp;
changing only remoteAddress triggers Modify-In-Place (device kind
unchanged), after which the re-queried remote equals the new value. -/
theorem reconcile_roundtrip (base : Nat) (d : TunnelDescriptor)
    (current : Option KernelTunnelParams) (t : KernelTunnelParams) (r : IPAddr) :
    reconcile current (compile base d) = some (compile base d) ∧
    reconcileAction (some t) t = .noOp ∧
    (r ≠ t.remote →
      reconcileAction (some t) { t with remote := r } = .modifyInPlace ∧
      reconcile (some t) { t with remote := r } = some { t with remote := r } ∧
      Option.map KernelTunnelParams.remote (reconcile (some t) { t with remote := r }) =
        some r) := by
  refine ⟨reconcile_eq_target _ _, by simp [reconcileAction], fun hr => ?_⟩
  have hne : t ≠ { t with remote := r } := by
    intro heq
    exact hr (congrArg KernelTunnelParams.remote heq).symm
  refine ⟨?_, reconcile_eq_target _ _, ?_⟩
  · unfold reconcileAction
    simp [hne]
  · rw [reconcile_eq_target]
    rfl

/-- Witness for claim C9: changing the GRE scenario's compiled remote to
192.0.2.12 on a matching live interface selects Modify-In-Place and the
re-queried remote is the new address. -/
theorem reconcile_roundtrip_witness :
    ((⟨.ipv4, "192.0.2.12"⟩ : IPAddr) ≠ (compile defaultBaseMtu greScenario).remote) ∧
    (reconcileAction (some (compile defaultBaseMtu greScenario))
        { compile defaultBaseMtu greScenario with remote := ⟨.ipv4, "192.0.2.12"⟩ } =
          .modifyInPlace ∧
      reconcile (some (compile defaultBaseMtu greScenario))
          { compile defaultBaseMtu greScenario with remote := ⟨.ipv4, "192.0.2.12"⟩ } =
        some { compile defaultBaseMtu greScenario with remote := ⟨.ipv4, "192.0.2.12"⟩ } ∧
      Option.map KernelTunnelParams.remote
          (reconcile (some (compile defaultBaseMtu greScenario))
            { compile defaultBaseMtu greScenario with remote := ⟨.ipv4, "192.0.2.12"⟩ }) =
        some ⟨.ipv4, "192.0.2.12"⟩) :=
  ⟨by decide,
    (reconcile_roundtrip defaultBaseMtu greScenario none
      (compile defaultBaseMtu greScenario) ⟨.ipv4, "192.0.2.12"⟩).2.2 (by decide)⟩

/- ### Lemmas about the RPKI verifier -/

/-- When `verify`'s per-peer body succeeds it has seen a configured
preference that was not among the preferences recorded so far, and it
appends exactly that preference to the accumulator. -/
lemma verifyPeer_ok (fe : String → Bool) (prefs : List Nat) (peer : String)
    (pc : Rpki.CacheEntry) (r : List Nat)
    (h : Rpki.verifyPeer fe prefs peer pc = .ok r) :
    ∃ p, pc.preference = some p ∧ p ∉ prefs ∧ r = prefs ++ [p] := by
  rcases pc with ⟨port, pref, ssh⟩
  rcases port with _ | port
  · simp [Rpki.verifyPeer, Bind.bind, Except.bind, throw, throwThe, MonadExceptOf.throw,
      Pure.pure, Except.pure] at h
  rcases pref with _ | p
  · simp [Rpki.verifyPeer, Bind.bind, Except.bind, throw, throwThe, MonadExceptOf.throw,
      Pure.pure, Except.pure] at h
  by_cases hp : p ∈ prefs
  · simp [Rpki.verifyPeer, hp, Bind.bind, Except.bind, throw, throwThe, MonadExceptOf.throw,
      Pure.pure, Except.pure] at h
  · rcases ssh with _ | s
    · simp [Rpki.verifyPeer, hp, Bind.bind, Except.bind, throw, throwThe, MonadExceptOf.throw,
        Pure.pure, Except.pure] at h
      exact ⟨p, rfl, hp, h.symm⟩
    · rcases h1 : Rpki.verifySsh fe s "private_key_file" with e | u <;>
        rcases h2 : Rpki.verifySsh fe s "public_key_file" with e2 | u2 <;>
        rcases h3 : Rpki.verifySsh fe s "known_hosts_file" with e3 | u3 <;>
        simp [Rpki.verifyPeer, hp, h1, h2, h3, Bind.bind, Except.bind, throw, throwThe,
          MonadExceptOf.throw, Pure.pure, Except.pure, Functor.map, Except.map] at h <;>
        exact ⟨p, rfl, hp, h.symm⟩

/-- When `verify`'s cache loop succeeds, the final accumulator is the
starting one extended by every configured preference, and it is
duplicate-free whenever the starting accumulator was. -/
lemma verifyCache_ok (fe : String → Bool) (entries : List (String × Rpki.CacheEntry)) :
    ∀ prefs r, Rpki.verifyCache fe prefs entries = .ok r →
      r = prefs ++ Rpki.cachePreferences entries ∧ (prefs.Nodup → r.Nodup) := by
  induction entries with
  | nil =>
      intro prefs r h
      simp [Rpki.verifyCache] at h
      simp [Rpki.cachePreferences, ← h]
  | cons e rest ih =>
      rcases e with ⟨peer, pc⟩
      intro prefs r h
      rcases hpeer : Rpki.verifyPeer fe prefs peer pc with err | prefsNext
      · simp [Rpki.verifyCache, hpeer, Bind.bind, Except.bind] at h
      · simp only [Rpki.verifyCache, hpeer, Bind.bind, Except.bind] at h
        obtain ⟨p, hpref, hnotmem, hnext⟩ := verifyPeer_ok fe prefs peer pc prefsNext hpeer
        obtain ⟨hr, hnodup⟩ := ih prefsNext r h
        subst hnext
        constructor
        · rw [hr]
          simp [Rpki.cachePreferences, List.filterMap_cons, hpref]
        · intro hnd
          apply hnodup
          simp [List.nodup_append, hnd, hnotmem]

/-- Claim C10: a preference value appearing on two distinct sibling cache
entries is rejected with a configuration error naming the duplicated
preference, and every configuration `verify` accepts has pairwise-distinct
preference values across its cache entries. -/
theorem rpki_preference_uniqueness (fe : String → Bool) (cfg : Rpki.Config)
    (entries : List (String × Rpki.CacheEntry))
    (hc : cfg.cache = some entries) (hne : cfg.nonempty = true) :
    (Rpki.verify fe cfg = .ok () → (Rpki.cachePreferences entries).Nodup) ∧
    (∀ (n1 n2 : String) (port1 port2 p : Nat),
      Rpki.verify fe
          ⟨true, some [(n1, ⟨some port1, some p, none⟩), (n2, ⟨some port2, some p, none⟩)]⟩ =
        .error s!"RPKI cache with preference {p} already configured!") := by
  constructor
  · intro hok
    simp only [Rpki.verify, hne, hc, Bool.not_true, Bool.false_eq_true, if_false] at hok
    rcases hcache : Rpki.verifyCache fe [] entries with e | r
    · rw [hcache] at hok
      simp [Except.map] at hok
    · have hprops := verifyCache_ok fe entries [] r hcache
      have hnod : r.Nodup := hprops.2 List.nodup_nil
      have hr : r = Rpki.cachePreferences entries := by
        simpa using hprops.1
      rwa [hr] at hnod
  · intro n1 n2 port1 port2 p
    simp [Rpki.verify, Rpki.verifyCache, Rpki.verifyPeer, Bind.bind, Except.bind,
      throw, throwThe, MonadExceptOf.throw, Pure.pure, Except.pure, Except.map]

/-- A concrete accepted RPKI configuration: two caches with distinct
preferences 1 and 2 (the shape of the vyos RPKI documentation example). -/
def rpkiSample : Rpki.Config :=
  ⟨true, some [("192.0.2.1", ⟨some 3323, some 1, Option.none⟩),
               ("192.0.2.2", ⟨some 3323, some 2, Option.none⟩)]⟩

/-- Witness for claim C10: the two-cache sample with preferences 1 and 2
passes `verify` and its preference list is duplicate-free. -/
theorem rpki_preference_uniqueness_witness :
    rpkiSample.cache = some [("192.0.2.1", ⟨some 3323, some 1, Option.none⟩),
                             ("192.0.2.2", ⟨some 3323, some 2, Option.none⟩)] ∧
    rpkiSample.nonempty = true ∧
    Rpki.verify (fun _ => true) rpkiSample = .ok () ∧
    (Rpki.cachePreferences [("192.0.2.1", ⟨some 3323, some 1, Option.none⟩),
                            ("192.0.2.2", ⟨some 3323, some 2, Option.none⟩)]).Nodup :=
  ⟨rfl, rfl, by rfl,
    (rpki_preference_uniqueness (fun _ => true) rpkiSample
      [("192.0.2.1", ⟨some 3323, some 1, Option.none⟩),
       ("192.0.2.2", ⟨some 3323, some 2, Option.none⟩)] rfl rfl).1 (by rfl)⟩

